import Mathlib

/-!
Shallow embedding of `LightGBM/python-package/lightgbm/plotting.py`.

Conventions of the embedding:
* Python numbers (floats and ints flowing through the plotting math) are
  modelled as rationals `ℚ`; machine floating point is not modelled.
* Python exceptions become the `PyErr` sum type; a function that can raise
  returns `Except PyErr _`, or a `Trace × Option PyErr` pair when we also
  record the rendering side effects performed before the exception.
* Calls into matplotlib / graphviz are recorded as `Effect` values in the
  order the source performs them; the availability flags
  `MATPLOTLIB_INSTALLED` / `GRAPHVIZ_INSTALLED` are explicit parameters.
* Python dicts that the module iterates in insertion order are modelled as
  association lists.
-/

namespace LGBMPlot

/-- Python exception classes raised by the plotting module. -/
inductive PyErr where
  | impErr (msg : String)
  | typeErr (msg : String)
  | valErr (msg : String)
  | keyErr (msg : String)
  | idxErr (msg : String)
  | stopIter
deriving DecidableEq, Repr

/-- Values carried by deprecated parameters and kwargs entries: the module
only passes them through, so we model them as strings or booleans. -/
inductive PyVal where
  | s (v : String)
  | b (v : Bool)
deriving DecidableEq, Repr

/-- Python truthiness of a `PyVal` (`if val:`). -/
def PyVal.truthy : PyVal → Bool
  | PyVal.s v => v ≠ ""
  | PyVal.b v => v

/-- One rendering side effect performed through matplotlib, plus emitted
warnings. Recorded in the order the source performs them. -/
inductive Effect where
  | subplots (figsize : Option (List ℚ))
  | barh (ylocs : List ℕ) (values : List ℚ) (height : ℚ)
  | text (x : ℚ) (y : ℕ) (s : String)
  | setYticks (l : List ℕ)
  | setYticklabels (l : List String)
  | setXlim (l : List ℚ)
  | setYlim (l : List ℚ)
  | setTitle (s : String)
  | setXlabel (s : String)
  | setYlabel (s : String)
  | gridOn (b : Bool)
  | bar (xs : List ℚ) (heights : List ℚ) (width : ℚ)
  | yIntegerTicks
  | plotLine (xs : List ℕ) (ys : List ℚ) (label : String)
  | legend
  | warn (msg : String)
  | imshow
  | axisOff
deriving DecidableEq, Repr

/-- A sequence of side effects, in execution order. -/
abbrev Trace := List Effect

/-- The graphviz `Digraph` object: constructor kwargs, then the node and edge
statements appended by `graph.node` / `graph.edge`, in emission order. -/
structure Digraph where
  options : List (String × PyVal)
  nodes : List (String × String)
  edges : List (String × String × Option String)
deriving DecidableEq, Repr

/-- `graph.node(name, label=label)`: appends a node statement. -/
def Digraph.addNode (g : Digraph) (name label : String) : Digraph :=
  { g with nodes := g.nodes ++ [(name, label)] }

/-- `graph.edge(parent, name, decision)`: appends an edge statement. -/
def Digraph.addEdge (g : Digraph) (tail head : String) (label : Option String) : Digraph :=
  { g with edges := g.edges ++ [(tail, head, label)] }

/-- A node of the dumped tree description: internal split node (tagged by the
presence of `split_index` in the source dict) or leaf. The annotation fields
`split_gain` / `internal_value` / `internal_count` / `leaf_count` are carried
on every node, as in LightGBM model dumps. -/
inductive TreeNode where
  | split (split_index split_feature : ℕ) (split_gain threshold : ℚ)
      (decision_type : String) (internal_value : ℚ) (internal_count : ℕ)
      (left_child right_child : TreeNode)
  | leaf (leaf_index : ℕ) (leaf_value : ℚ) (leaf_count : ℕ)
deriving DecidableEq, Repr

/-- One entry of the model dump's `tree_info` list. -/
structure TreeInfo where
  tree_structure : TreeNode
deriving DecidableEq, Repr

/-- Pad a decimal digit string on the left with zeros up to width `p`. -/
def padZeros (p : ℕ) (s : String) : String :=
  ("".pushn '0' (p - s.length)) ++ s

/-- Fixed-point rendering of a rational with `p` digits after the decimal
point, standing in for Python's float format to `p` places. -/
def fixedFormat (v : ℚ) (p : ℕ) : String :=
  let scaled : ℤ := round (v * ((10 : ℚ) ^ p))
  let sign := if scaled < 0 then "-" else ""
  let n := scaled.natAbs
  if p = 0 then sign ++ toString (n : ℤ)
  else sign ++ toString ((n / 10 ^ p : ℕ) : ℤ) ++ "." ++ padZeros p (toString (n % 10 ^ p : ℕ))

/-- `_float2str`: fixed-point at the requested precision when one is given
(numeric values are never strings in this model), else default rendering. -/
def _float2str (value : ℚ) (precision : Option ℕ) : String :=
  match precision with
  | some p => fixedFormat value p
  | none => toString value

/-- The feature-identity part of an internal node's label:
`feature_names[root[...]]` raises IndexError when the index is out of range. -/
def splitFeatureLabel (feature_names : Option (List String)) (sf : ℕ) : Except PyErr String :=
  match feature_names with
  | some fns =>
    match fns.get? sf with
    | some s => Except.ok ("split_feature_name: " ++ s)
    | none => Except.error (PyErr.idxErr "list index out of range")
  | none => Except.ok ("split_feature_index: " ++ toString sf)

/-- The `for info in show_info` loop appending annotation lines to an internal
node's label. -/
def splitExtras (show_info : List String) (precision : Option ℕ)
    (sg iv : ℚ) (ic : ℕ) : String :=
  show_info.foldl (fun acc info =>
    if info = "split_gain" then acc ++ "\\n" ++ info ++ ": " ++ _float2str sg precision
    else if info = "internal_value" then acc ++ "\\n" ++ info ++ ": " ++ _float2str iv precision
    else if info = "internal_count" then acc ++ "\\n" ++ info ++ ": " ++ toString ic
    else acc) ""

/-- Branch labels determined by an internal node's decision operator; `none`
for an unrecognized operator. -/
def decLabels (dt : String) : Option (String × String) :=
  if dt = "<=" then some ("<=", ">")
  else if dt = "==" then some ("is", "isn\x27t")
  else none

/-- The synthetic graph-node name of a tree node (`split<i>` / `leaf<i>`). -/
def nodeName : TreeNode → String
  | TreeNode.split si _ _ _ _ _ _ _ _ => "split" ++ toString si
  | TreeNode.leaf li _ _ => "leaf" ++ toString li

/-- `if parent is not None: graph.edge(parent, name, decision)`. -/
def addParentEdge (g : Digraph) (parent : Option String) (name : String)
    (decision : Option String) : Digraph :=
  match parent with
  | some p => g.addEdge p name decision
  | none => g

/-- The recursive `add(root, parent=None, decision=None)` closure of
`_to_graphviz`, with the mutated graph passed explicitly. Emission order
follows the source: node, recurse left, recurse right, then the edge from the
parent. -/
def add (show_info : List String) (feature_names : Option (List String))
    (precision : Option ℕ) :
    TreeNode → Option String → Option String → Digraph → Except PyErr Digraph
  | TreeNode.split si sf sg th dt iv ic l r, parent, decision, g =>
    let name := "split" ++ toString si
    match splitFeatureLabel feature_names sf with
    | Except.error e => Except.error e
    | Except.ok flabel =>
      let label := flabel ++ "\\nthreshold: " ++ _float2str th precision
        ++ splitExtras show_info precision sg iv ic
      let g1 := g.addNode name label
      match decLabels dt with
      | none => Except.error (PyErr.valErr "Invalid decision type in tree model.")
      | some (l_dec, r_dec) =>
        match add show_info feature_names precision l (some name) (some l_dec) g1 with
        | Except.error e => Except.error e
        | Except.ok g2 =>
          match add show_info feature_names precision r (some name) (some r_dec) g2 with
          | Except.error e => Except.error e
          | Except.ok g3 => Except.ok (addParentEdge g3 parent name decision)
  | TreeNode.leaf li lv lc, parent, decision, g =>
    let name := "leaf" ++ toString li
    let label := "leaf_index: " ++ toString li
      ++ "\\nleaf_value: " ++ _float2str lv precision
      ++ (if "leaf_count" ∈ show_info then "\\nleaf_count: " ++ toString lc else "")
    Except.ok (addParentEdge (g.addNode name label) parent name decision)

/-- `_to_graphviz`: availability check, fresh `Digraph(**kwargs)`, then the
recursive walk from the root. -/
def _to_graphviz (graphviz_installed : Bool) (tree_info : TreeInfo)
    (show_info : List String) (feature_names : Option (List String))
    (precision : Option ℕ) (kwargs : List (String × PyVal)) : Except PyErr Digraph :=
  if graphviz_installed then
    add show_info feature_names precision tree_info.tree_structure none none
      (Digraph.mk kwargs [] [])
  else
    Except.error (PyErr.impErr "You must install graphviz to plot tree.")

/-- `_check_not_tuple_of_2_elements` on a supplied range/size argument,
modelled as a list of rationals: a length other than 2 is the malformed
("not a tuple of 2 elements") case. -/
def _check_not_tuple_of_2_elements (obj : List ℚ) (obj_name : String) : Option PyErr :=
  if obj.length ≠ 2 then some (PyErr.typeErr (obj_name ++ " must be a tuple of 2 elements."))
  else none

/-- Python `sorted(..., key=lambda x: x[1])`: a stable sort, ascending on the
second component. -/
def pySorted (l : List (String × ℚ)) : List (String × ℚ) :=
  List.insertionSort (fun a b => a.2 ≤ b.2) l

/-- Python `max` over a sequence; raises on an empty sequence. -/
def pyMaxE : List ℚ → Except PyErr ℚ
  | [] => Except.error (PyErr.valErr "max() arg is an empty sequence")
  | x :: xs => Except.ok (xs.foldl max x)

/-- Python `min` over a sequence; raises on an empty sequence. -/
def pyMinE : List ℚ → Except PyErr ℚ
  | [] => Except.error (PyErr.valErr "min() arg is an empty sequence")
  | x :: xs => Except.ok (xs.foldl min x)

/-- Python list indexing `l[i]` with an integer index: negative indices count
from the end; out of range is `none` (IndexError at the call site). -/
def pyIndex {α : Type} (l : List α) (i : ℤ) : Option α :=
  if 0 ≤ i then l.get? i.toNat
  else if 0 ≤ (l.length : ℤ) + i then l.get? ((l.length : ℤ) + i).toNat
  else none

/-- The model data behind `booster.dump_model()`: the per-tree structures and
the optional `feature_names` key. -/
structure ModelDump where
  tree_info : List TreeInfo
  feature_names : Option (List String)
deriving DecidableEq, Repr

/-- The externally owned model handle, modelled by the results of the
accessors this module calls: `feature_importance(importance_type)`,
`feature_name()`, `get_split_value_histogram(...)` (a `(hist, bin_edges)`
pair for the queried feature), and `dump_model()`. -/
structure Booster where
  feature_importance : List ℚ
  feature_name : List String
  split_value_histogram : List ℚ × List ℚ
  dump_model : ModelDump
deriving DecidableEq, Repr

/-- The `booster` argument as passed by the caller: an `LGBMModel` (whose
`.booster_` is taken), a raw `Booster`, or an unsupported object. -/
inductive BoosterArg where
  | lgbmModel (b : Booster)
  | booster (b : Booster)
  | invalid
deriving DecidableEq, Repr

/-- The `isinstance` dispatch shared by the entry points: unwrap an
`LGBMModel`, accept a `Booster`, reject anything else. -/
def resolveBooster : BoosterArg → Option Booster
  | BoosterArg.lgbmModel b => some b
  | BoosterArg.booster b => some b
  | BoosterArg.invalid => none

/-- The `if ax is None:` branch shared by the plotters: validate `figsize`
when given, then create a fresh figure and axes. -/
def axCreate (ax : Bool) (figsize : Option (List ℚ)) : Except PyErr Trace :=
  if ax then Except.ok []
  else
    match figsize with
    | some fs =>
      match _check_not_tuple_of_2_elements fs "figsize" with
      | some e => Except.error e
      | none => Except.ok [Effect.subplots figsize]
    | none => Except.ok [Effect.subplots figsize]

/-- Lines 99-103 of the source: sort the `(name, score)` pairs ascending by
score, drop non-positive scores when `ignore_zero`, and keep the last
`max_num_features` entries when that bound is given and positive. -/
def importance_tuples (feature_name : List String) (importance : List ℚ)
    (ignore_zero : Bool) (max_num_features : Option ℤ) : List (String × ℚ) :=
  let tuples := pySorted (feature_name.zip importance)
  let tuples := if ignore_zero then tuples.filter (fun x => decide (0 < x.2)) else tuples
  match max_num_features with
  | some n => if 0 < n then tuples.drop (tuples.length - n.toNat) else tuples
  | none => tuples

/-- `plot_importance`: the `ax` flag records whether a target axes instance
was supplied (`true`) or a fresh one must be created (`false`). Returns the
rendering side effects performed, and the exception raised if any. -/
def plot_importance (matplotlib_installed : Bool) (booster : BoosterArg)
    (ax : Bool) (height : ℚ) (xlim ylim : Option (List ℚ))
    (title xlabel ylabel : Option String) (importance_type : String)
    (max_num_features : Option ℤ) (ignore_zero : Bool)
    (figsize : Option (List ℚ)) (grid : Bool) (precision : Option ℕ) :
    Trace × Option PyErr :=
  if !matplotlib_installed then
    ([], some (PyErr.impErr "You must install matplotlib to plot importance."))
  else
    match resolveBooster booster with
    | none => ([], some (PyErr.typeErr "booster must be Booster or LGBMModel."))
    | some b =>
      let importance := b.feature_importance
      let feature_name := b.feature_name
      if importance.length = 0 then
        ([], some (PyErr.valErr "Booster\x27s feature_importance is empty."))
      else
        let tuples := importance_tuples feature_name importance ignore_zero max_num_features
        if tuples.isEmpty then
          ([], some (PyErr.valErr "not enough values to unpack (expected 2, got 0)"))
        else
          let labels := tuples.map Prod.fst
          let values := tuples.map Prod.snd
          match axCreate ax figsize with
          | Except.error e => ([], some e)
          | Except.ok tr0 =>
            let ylocs := List.range values.length
            let tr1 := tr0 ++ [Effect.barh ylocs values height]
            let tr2 := tr1 ++ (values.zip ylocs).map (fun xy =>
              Effect.text (xy.1 + 1) xy.2
                (if importance_type = "gain" then _float2str xy.1 precision else toString xy.1))
            let tr3 := tr2 ++ [Effect.setYticks ylocs, Effect.setYticklabels labels]
            match (match xlim with
                   | some xl =>
                     match _check_not_tuple_of_2_elements xl "xlim" with
                     | some e => Except.error e
                     | none => Except.ok xl
                   | none =>
                     match pyMaxE values with
                     | Except.error e => Except.error e
                     | Except.ok mx => Except.ok [0, mx * 1.1]) with
            | Except.error e => (tr3, some e)
            | Except.ok xlimv =>
              let tr4 := tr3 ++ [Effect.setXlim xlimv]
              match (match ylim with
                     | some yl =>
                       match _check_not_tuple_of_2_elements yl "ylim" with
                       | some e => Except.error e
                       | none => Except.ok yl
                     | none => Except.ok [-1, (values.length : ℚ)]) with
              | Except.error e => (tr4, some e)
              | Except.ok ylimv =>
                let tr5 := tr4 ++ [Effect.setYlim ylimv]
                let tr6 := tr5 ++ (match title with | some t => [Effect.setTitle t] | none => [])
                let tr7 := tr6 ++ (match xlabel with | some t => [Effect.setXlabel t] | none => [])
                let tr8 := tr7 ++ (match ylabel with | some t => [Effect.setYlabel t] | none => [])
                (tr8 ++ [Effect.gridOn grid], none)

/-- The `feature` argument of `plot_split_value_histogram`: an index or a
name. -/
inductive Feature where
  | idx (i : ℕ)
  | name (s : String)
deriving DecidableEq, Repr

/-- Python `str(feature)` / `format(feature)`. -/
def featureStr : Feature → String
  | Feature.idx i => toString i
  | Feature.name s => s

/-- `np.count_nonzero`. -/
def countNonzero (l : List ℚ) : ℕ :=
  (l.filter (fun x => decide (x ≠ 0))).length

/-- `plot_split_value_histogram`: the booster supplies the `(hist, bin_edges)`
pair via its `get_split_value_histogram` accessor. -/
def plot_split_value_histogram (matplotlib_installed : Bool) (booster : BoosterArg)
    (feature : Feature) (width_coef : ℚ) (ax : Bool) (xlim ylim : Option (List ℚ))
    (title xlabel ylabel : Option String) (figsize : Option (List ℚ)) (grid : Bool) :
    Trace × Option PyErr :=
  if !matplotlib_installed then
    ([], some (PyErr.impErr "You must install matplotlib to plot split value histogram."))
  else
    match resolveBooster booster with
    | none => ([], some (PyErr.typeErr "booster must be Booster or LGBMModel."))
    | some b =>
      let hist := b.split_value_histogram.1
      let bins := b.split_value_histogram.2
      if countNonzero hist = 0 then
        ([], some (PyErr.valErr ("Cannot plot split value histogram, because feature "
          ++ featureStr feature ++ " was not used in splitting")))
      else
        match bins with
        | b0 :: b1 :: _ =>
          let width := width_coef * (b1 - b0)
          let centred := List.zipWith (fun a c => (a + c) / 2) bins.dropLast (bins.drop 1)
          match axCreate ax figsize with
          | Except.error e => ([], some e)
          | Except.ok tr0 =>
            let tr1 := tr0 ++ [Effect.bar centred hist width]
            match (match xlim with
                   | some xl =>
                     match _check_not_tuple_of_2_elements xl "xlim" with
                     | some e => Except.error e
                     | none => Except.ok xl
                   | none =>
                     let blast := bins.getLast?.getD 0
                     let range_result := blast - b0
                     Except.ok [b0 - range_result * 0.2, blast + range_result * 0.2]) with
            | Except.error e => (tr1, some e)
            | Except.ok xlimv =>
              let tr2 := tr1 ++ [Effect.setXlim xlimv, Effect.yIntegerTicks]
              match (match ylim with
                     | some yl =>
                       match _check_not_tuple_of_2_elements yl "ylim" with
                       | some e => Except.error e
                       | none => Except.ok yl
                     | none =>
                       match pyMaxE hist with
                       | Except.error e => Except.error e
                       | Except.ok mx => Except.ok [0, mx * 1.1]) with
              | Except.error e => (tr2, some e)
              | Except.ok ylimv =>
                let tr3 := tr2 ++ [Effect.setYlim ylimv]
                let tr4 := tr3 ++ (match title with
                  | some t => [Effect.setTitle
                      ((t.replace "@feature@" (featureStr feature)).replace "@index/name@"
                        (match feature with
                         | Feature.name _ => "name"
                         | Feature.idx _ => "index"))]
                  | none => [])
                let tr5 := tr4 ++ (match xlabel with | some t => [Effect.setXlabel t] | none => [])
                let tr6 := tr5 ++ (match ylabel with | some t => [Effect.setYlabel t] | none => [])
                (tr6 ++ [Effect.gridOn grid], none)
        | _ => ([], some (PyErr.idxErr "index 1 is out of bounds"))

/-- The evaluation-results record: dataset name to metric name to the
per-iteration values, both dicts in insertion order. -/
abbrev EvalResults := List (String × List (String × List ℚ))

/-- The `booster` argument of `plot_metric`: an `LGBMModel` (whose
`evals_result_` is read), a plain dict, or an unsupported object. -/
inductive MetricBooster where
  | lgbmModel (evals_result : EvalResults)
  | dict (d : EvalResults)
  | invalid
deriving DecidableEq, Repr

/-- The `isinstance` dispatch of `plot_metric`. -/
def resolveEvalResults : MetricBooster → Option EvalResults
  | MetricBooster.lgbmModel r => some r
  | MetricBooster.dict d => some d
  | MetricBooster.invalid => none

/-- Python dict lookup `d[k]` on an association list. -/
def lookupA {α : Type} (l : List (String × α)) (k : String) : Option α :=
  (l.find? (fun p => p.1 = k)).map Prod.snd

/-- Python `dict.popitem()`: removes and returns the last inserted item. -/
def popitem {α : Type} (d : List (String × α)) :
    Option ((String × α) × List (String × α)) :=
  match d.getLast? with
  | some p => some (p, d.dropLast)
  | none => none

/-- Replace the value stored under key `k`. -/
def updateA {α : Type} (l : List (String × α)) (k : String) (v : α) :
    List (String × α) :=
  l.map (fun p => if p.1 = k then (k, v) else p)

/-- The `for name in dataset_names:` loop of `plot_metric` (lines 338-342):
plots each remaining dataset and keeps the running maximum and minimum of the
metric values. Returns the trace, the exception if one was raised, and the
final running maximum and minimum. -/
def metricLoop (eval_results : EvalResults) (metric : String) (x_ : List ℕ) :
    List String → ℚ → ℚ → Trace → Trace × Option PyErr × ℚ × ℚ
  | [], max_result, min_result, tr => (tr, none, max_result, min_result)
  | name :: rest, max_result, min_result, tr =>
    match lookupA eval_results name with
    | none => (tr, some (PyErr.keyErr name), max_result, min_result)
    | some metrics_for_one =>
      match lookupA metrics_for_one metric with
      | none => (tr, some (PyErr.keyErr metric), max_result, min_result)
      | some results =>
        match pyMaxE results, pyMinE results with
        | Except.ok mx, Except.ok mn =>
          metricLoop eval_results metric x_ rest (max mx max_result) (min mn min_result)
            (tr ++ [Effect.plotLine x_ results name])
        | Except.error e, _ => (tr, some e, max_result, min_result)
        | _, Except.error e => (tr, some e, max_result, min_result)

/-- The metric selection of `plot_metric` (lines 322-333): with no metric
requested, warn when the first dataset records more than one metric and pop
its last item (removing it from that dataset only); otherwise look the
requested metric up in the first dataset. Returns the warnings emitted, the
chosen metric name, its results, and the possibly updated evaluation
record. -/
def metricChoice (metrics_for_one : List (String × List ℚ)) (metric : Option String)
    (eval_results : EvalResults) (name1 : String) :
    Except (Trace × PyErr) (Trace × String × List ℚ × EvalResults) :=
  match metric with
  | none =>
    let wtr : Trace :=
      if 1 < metrics_for_one.length then
        [Effect.warn "more than one metric available, picking one to plot."]
      else []
    match popitem metrics_for_one with
    | none => Except.error (wtr, PyErr.keyErr "popitem(): dictionary is empty")
    | some ((m, results), remaining) =>
      Except.ok (wtr, m, results, updateA eval_results name1 remaining)
  | some m =>
    match lookupA metrics_for_one m with
    | none => Except.error (([] : Trace), PyErr.keyErr "No given metric in eval results.")
    | some results => Except.ok (([] : Trace), m, results, eval_results)

/-- `plot_metric`. -/
def plot_metric (matplotlib_installed : Bool) (booster : MetricBooster)
    (metric : Option String) (dataset_names : Option (List String))
    (ax : Bool) (xlim ylim : Option (List ℚ))
    (title xlabel ylabel : Option String)
    (figsize : Option (List ℚ)) (grid : Bool) : Trace × Option PyErr :=
  if !matplotlib_installed then
    ([], some (PyErr.impErr "You must install matplotlib to plot metric."))
  else
    match resolveEvalResults booster with
    | none => ([], some (PyErr.typeErr "booster must be dict or LGBMModel."))
    | some eval_results =>
      if eval_results.length = 0 then
        ([], some (PyErr.valErr "eval results cannot be empty."))
      else
        match axCreate ax figsize with
        | Except.error e => ([], some e)
        | Except.ok tr0 =>
          match (match dataset_names with
                 | none => Except.ok (eval_results.map Prod.fst)
                 | some ds =>
                   if ds.isEmpty then
                     Except.error (PyErr.valErr "dataset_names should be iterable and cannot be empty")
                   else Except.ok ds) with
          | Except.error e => (tr0, some e)
          | Except.ok names =>
            match names with
            | [] => (tr0, some PyErr.stopIter)
            | name1 :: rest =>
              match lookupA eval_results name1 with
              | none => (tr0, some (PyErr.keyErr name1))
              | some metrics_for_one =>
                match metricChoice metrics_for_one metric eval_results name1 with
                | Except.error ep => (tr0 ++ ep.1, some ep.2)
                | Except.ok (wtr, m, results, er2) =>
                  let num_iteration := results.length
                  match pyMaxE results, pyMinE results with
                  | Except.error e, _ => (tr0 ++ wtr, some e)
                  | _, Except.error e => (tr0 ++ wtr, some e)
                  | Except.ok max0, Except.ok min0 =>
                    let x_ := List.range num_iteration
                    let tr1 := tr0 ++ wtr ++ [Effect.plotLine x_ results name1]
                    match metricLoop er2 m x_ rest max0 min0 tr1 with
                    | (tr2, some e, _, _) => (tr2, some e)
                    | (tr2, none, max_result, min_result) =>
                      let tr3 := tr2 ++ [Effect.legend]
                      match (match xlim with
                             | some xl =>
                               match _check_not_tuple_of_2_elements xl "xlim" with
                               | some e => Except.error e
                               | none => Except.ok xl
                             | none => Except.ok [0, (num_iteration : ℚ)]) with
                      | Except.error e => (tr3, some e)
                      | Except.ok xlimv =>
                        let tr4 := tr3 ++ [Effect.setXlim xlimv]
                        match (match ylim with
                               | some yl =>
                                 match _check_not_tuple_of_2_elements yl "ylim" with
                                 | some e => Except.error e
                                 | none => Except.ok yl
                               | none =>
                                 let range_result := max_result - min_result
                                 Except.ok [min_result - range_result * 0.2,
                                            max_result + range_result * 0.2]) with
                        | Except.error e => (tr4, some e)
                        | Except.ok ylimv =>
                          let tr5 := tr4 ++ [Effect.setYlim ylimv]
                          let ylabel2 := if ylabel = some "auto" then some m else ylabel
                          let tr6 := tr5 ++ (match title with | some t => [Effect.setTitle t] | none => [])
                          let tr7 := tr6 ++ (match xlabel with | some t => [Effect.setXlabel t] | none => [])
                          let tr8 := tr7 ++ (match ylabel2 with | some t => [Effect.setYlabel t] | none => [])
                          (tr8 ++ [Effect.gridOn grid], none)

/-- The deprecated keyword parameters of `create_tree_digraph`. -/
structure CtdDeprecated where
  old_name : Option PyVal
  old_comment : Option PyVal
  old_filename : Option PyVal
  old_directory : Option PyVal
  old_format : Option PyVal
  old_engine : Option PyVal
  old_encoding : Option PyVal
  old_graph_attr : Option PyVal
  old_node_attr : Option PyVal
  old_edge_attr : Option PyVal
  old_body : Option PyVal
  old_strict : Bool
deriving DecidableEq, Repr

/-- All deprecated parameters left at their defaults. -/
def ctdNoDeprecated : CtdDeprecated :=
  CtdDeprecated.mk none none none none none none none none none none none false

/-- `locals().get(s)` inside `create_tree_digraph`, restricted to the
deprecated parameters: the locals of the function bind the names as spelled
in its signature, so the name `strict` is bound by no local and `old_strict`
is a boolean. -/
def ctdLocals (p : CtdDeprecated) : String → Option PyVal := fun s =>
  if s = "old_name" then p.old_name
  else if s = "old_comment" then p.old_comment
  else if s = "old_filename" then p.old_filename
  else if s = "old_directory" then p.old_directory
  else if s = "old_format" then p.old_format
  else if s = "old_engine" then p.old_engine
  else if s = "old_encoding" then p.old_encoding
  else if s = "old_graph_attr" then p.old_graph_attr
  else if s = "old_node_attr" then p.old_node_attr
  else if s = "old_edge_attr" then p.old_edge_attr
  else if s = "old_body" then p.old_body
  else if s = "old_strict" then some (PyVal.b p.old_strict)
  else none

/-- The list iterated by the deprecation loop of `create_tree_digraph`. -/
def ctdDeprecatedNames : List String :=
  ["old_name", "old_comment", "old_filename", "old_directory", "old_format",
   "old_engine", "old_encoding", "old_graph_attr", "old_node_attr",
   "old_edge_attr", "old_body"]

/-- The warning text emitted for a deprecated parameter. -/
def deprecationMsg (param_name : String) : String :=
  param_name ++ " parameter is deprecated and will be removed in 2.4 version.\nPlease use **kwargs to pass "
    ++ param_name.drop 4 ++ " parameter."

/-- One iteration of the deprecation loop: warn when the parameter is set and
fold it into kwargs under its stripped name unless already present. -/
def foldDeprecated (locals_get : String → Option PyVal)
    (acc : List String × List (String × PyVal)) (param_name : String) :
    List String × List (String × PyVal) :=
  match locals_get param_name with
  | some param =>
    let warns := acc.1 ++ [deprecationMsg param_name]
    if (acc.2.lookup (param_name.drop 4)).isSome then (warns, acc.2)
    else (warns, acc.2 ++ [(param_name.drop 4, param)])
  | none => (acc.1, acc.2)

/-- The warning text of the `old_strict` branch. -/
def strictDeprecationMsg : String :=
  "old_strict parameter is deprecated and will be removed in 2.4 version.\nPlease use **kwargs to pass strict parameter."

/-- The deprecated-parameter processing of `create_tree_digraph` (lines
458-473): the loop over the eleven named deprecated parameters, then the
branch guarded by `locals().get` of the name `strict`. Returns the emitted
warnings and the updated kwargs. -/
def processDeprecatedCtd (p : CtdDeprecated) (kwargs : List (String × PyVal)) :
    List String × List (String × PyVal) :=
  let r := ctdDeprecatedNames.foldl (foldDeprecated (ctdLocals p)) ([], kwargs)
  match ctdLocals p "strict" with
  | some v =>
    if v.truthy then
      (r.1 ++ [strictDeprecationMsg],
       if (r.2.lookup "strict").isSome then r.2 else r.2 ++ [("strict", PyVal.b true)])
    else r
  | none => r

/-- `create_tree_digraph`: returns the warnings emitted (as a trace) and the
resulting digraph or the exception raised. -/
def create_tree_digraph (graphviz_installed : Bool) (booster : BoosterArg)
    (tree_index : ℤ) (show_info : Option (List String)) (precision : Option ℕ)
    (dep : CtdDeprecated) (kwargs : List (String × PyVal)) :
    Trace × Except PyErr Digraph :=
  match resolveBooster booster with
  | none => ([], Except.error (PyErr.typeErr "booster must be Booster or LGBMModel."))
  | some b =>
    let wk := processDeprecatedCtd dep kwargs
    let tr : Trace := wk.1.map Effect.warn
    let model := b.dump_model
    let tree_infos := model.tree_info
    let feature_names := model.feature_names
    if tree_index < (tree_infos.length : ℤ) then
      match pyIndex tree_infos tree_index with
      | some tree_info =>
        (tr, _to_graphviz graphviz_installed tree_info (show_info.getD [])
          feature_names precision wk.2)
      | none => (tr, Except.error (PyErr.idxErr "list index out of range"))
    else (tr, Except.error (PyErr.idxErr "tree_index is out of range."))

/-- The deprecated keyword parameters of `plot_tree`. -/
structure PtDeprecated where
  old_graph_attr : Option PyVal
  old_node_attr : Option PyVal
  old_edge_attr : Option PyVal
deriving DecidableEq, Repr

/-- `locals().get(s)` inside `plot_tree`, restricted to the deprecated
parameters. -/
def ptLocals (p : PtDeprecated) : String → Option PyVal := fun s =>
  if s = "old_graph_attr" then p.old_graph_attr
  else if s = "old_node_attr" then p.old_node_attr
  else if s = "old_edge_attr" then p.old_edge_attr
  else none

/-- The list iterated by the deprecation loop of `plot_tree`. -/
def ptDeprecatedNames : List String :=
  ["old_graph_attr", "old_node_attr", "old_edge_attr"]

/-- The deprecated-parameter processing of `plot_tree` (lines 536-543). -/
def processDeprecatedPt (p : PtDeprecated) (kwargs : List (String × PyVal)) :
    List String × List (String × PyVal) :=
  ptDeprecatedNames.foldl (foldDeprecated (ptLocals p)) ([], kwargs)

/-- `plot_tree`: deprecation processing, axes creation, delegation to
`create_tree_digraph`, then rasterization and display. -/
def plot_tree (matplotlib_installed graphviz_installed : Bool) (booster : BoosterArg)
    (ax : Bool) (tree_index : ℤ) (figsize : Option (List ℚ)) (dep : PtDeprecated)
    (show_info : Option (List String)) (precision : Option ℕ)
    (kwargs : List (String × PyVal)) : Trace × Option PyErr :=
  if !matplotlib_installed then
    ([], some (PyErr.impErr "You must install matplotlib to plot tree."))
  else
    let wk := processDeprecatedPt dep kwargs
    let tr0 : Trace := wk.1.map Effect.warn
    match axCreate ax figsize with
    | Except.error e => (tr0, some e)
    | Except.ok trAx =>
      let tr1 := tr0 ++ trAx
      match create_tree_digraph graphviz_installed booster tree_index show_info precision
          ctdNoDeprecated wk.2 with
      | (trC, Except.error e) => (tr1 ++ trC, some e)
      | (trC, Except.ok _) => (tr1 ++ trC ++ [Effect.imshow, Effect.axisOff], none)

/-- Number of internal (split) nodes of a tree description. -/
def internalCount : TreeNode → ℕ
  | TreeNode.split _ _ _ _ _ _ _ l r => 1 + internalCount l + internalCount r
  | TreeNode.leaf _ _ _ => 0

/-- Number of leaf nodes of a tree description. -/
def leafCount : TreeNode → ℕ
  | TreeNode.split _ _ _ _ _ _ _ l r => leafCount l + leafCount r
  | TreeNode.leaf _ _ _ => 1

/-! ### Lemmas about the tree walker -/

theorem addNode_nodes_length (g : Digraph) (n l : String) :
    (g.addNode n l).nodes.length = g.nodes.length + 1 := by
  simp [Digraph.addNode]

theorem addNode_edges (g : Digraph) (n l : String) :
    (g.addNode n l).edges = g.edges := rfl

theorem addParentEdge_nodes (g : Digraph) (p : Option String) (n : String)
    (d : Option String) : (addParentEdge g p n d).nodes = g.nodes := by
  cases p <;> rfl

theorem addParentEdge_edges_length (g : Digraph) (p : Option String) (n : String)
    (d : Option String) :
    (addParentEdge g p n d).edges.length = g.edges.length + (if p.isSome then 1 else 0) := by
  cases p <;> simp [addParentEdge, Digraph.addEdge]

/-- On success, the walk starting at `t` adds one graph node per tree node and
one edge per parent-child relationship below `t`, plus the edge up to the
parent of `t` when there is one. -/
theorem add_ok_counts (sinfo : List String) (fn : Option (List String)) (pr : Option ℕ) :
    ∀ (t : TreeNode) (parent decision : Option String) (g g' : Digraph),
      add sinfo fn pr t parent decision g = Except.ok g' →
      g'.nodes.length = g.nodes.length + (internalCount t + leafCount t) ∧
      g'.edges.length = g.edges.length + 2 * internalCount t +
        (if parent.isSome then 1 else 0) := by
  intro t
  induction t with
  | split sidx sf sg th dt iv ic l r ihl ihr =>
    intro parent decision g g' h
    rw [add] at h
    split at h
    · exact absurd h (by simp)
    · split at h
      · exact absurd h (by simp)
      · rename_i flabel _ ld rd _
        dsimp only at h
        split at h
        · exact absurd h (by simp)
        · rename_i g2 h1
          split at h
          · exact absurd h (by simp)
          · rename_i g3 h2
            injection h with hg
            have c1 := ihl (some ("split" ++ toString sidx)) (some ld) _ _ h1
            have c2 := ihr (some ("split" ++ toString sidx)) (some rd) _ _ h2
            constructor
            · rw [← hg, addParentEdge_nodes, c2.1, c1.1]
              cases parent <;> simp [addNode_nodes_length, internalCount, leafCount] <;> omega
            · rw [← hg, addParentEdge_edges_length, c2.2, c1.2]
              cases parent <;> simp [addNode_edges, internalCount] <;> omega
  | leaf li lv lc =>
    intro parent decision g g' h
    rw [add] at h
    injection h with hg
    constructor
    · rw [← hg, addParentEdge_nodes, addNode_nodes_length]
      simp [internalCount, leafCount]
    · rw [← hg, addParentEdge_edges_length]
      cases parent <;> simp [addNode_edges, internalCount]

/-- Edges already present are preserved by the walk. -/
theorem add_edges_subset (sinfo : List String) (fn : Option (List String)) (pr : Option ℕ) :
    ∀ (t : TreeNode) (parent decision : Option String) (g g' : Digraph),
      add sinfo fn pr t parent decision g = Except.ok g' →
      ∀ e, e ∈ g.edges → e ∈ g'.edges := by
  intro t
  induction t with
  | split sidx sf sg th dt iv ic l r ihl ihr =>
    intro parent decision g g' h e he
    rw [add] at h
    split at h
    · exact absurd h (by simp)
    · split at h
      · exact absurd h (by simp)
      · rename_i flabel _ ld rd _
        dsimp only at h
        split at h
        · exact absurd h (by simp)
        · rename_i g2 h1
          split at h
          · exact absurd h (by simp)
          · rename_i g3 h2
            injection h with hg
            have m1 : e ∈ g2.edges := ihl _ _ _ _ h1 e (by rw [addNode_edges]; exact he)
            have m2 : e ∈ g3.edges := ihr _ _ _ _ h2 e m1
            rw [← hg]
            cases parent with
            | none => simpa [addParentEdge] using m2
            | some p =>
              simp [addParentEdge, Digraph.addEdge]
              exact Or.inl m2
  | leaf li lv lc =>
    intro parent decision g g' h e he
    rw [add] at h
    injection h with hg
    rw [← hg]
    cases parent with
    | none => simpa [addParentEdge, Digraph.addNode] using he
    | some p =>
      simp [addParentEdge, Digraph.addEdge, Digraph.addNode]
      exact Or.inl he

/-- On success with a parent, the edge from the parent to the root of the
walked subtree, carrying the branch-decision label, is in the graph. -/
theorem add_ok_parent_edge (sinfo : List String) (fn : Option (List String)) (pr : Option ℕ)
    (t : TreeNode) (p d : String) (g g' : Digraph)
    (h : add sinfo fn pr t (some p) (some d) g = Except.ok g') :
    (p, nodeName t, some d) ∈ g'.edges := by
  cases t with
  | split sidx sf sg th dt iv ic l r =>
    rw [add] at h
    split at h
    · exact absurd h (by simp)
    · split at h
      · exact absurd h (by simp)
      · rename_i flabel _ ld rd _
        dsimp only at h
        split at h
        · exact absurd h (by simp)
        · rename_i g2 h1
          split at h
          · exact absurd h (by simp)
          · rename_i g3 h2
            injection h with hg
            rw [← hg]
            simp [addParentEdge, Digraph.addEdge, nodeName]
  | leaf li lv lc =>
    rw [add] at h
    injection h with hg
    rw [← hg]
    simp [addParentEdge, Digraph.addEdge, nodeName]

/-- Membership in the edge list is preserved by `addParentEdge`. -/
theorem addParentEdge_edges_mem (g : Digraph) (parent : Option String) (n : String)
    (d : Option String) (e : String × String × Option String) (he : e ∈ g.edges) :
    e ∈ (addParentEdge g parent n d).edges := by
  cases parent with
  | none => exact he
  | some p =>
    simp [addParentEdge, Digraph.addEdge]
    exact Or.inl he

/-- For an internal node whose decision type resolves to the branch-label
pair `(ld, rd)`, a successful walk records the edge to the left child labeled
`ld` and the edge to the right child labeled `rd`. -/
theorem add_split_edges (sinfo : List String) (fn : Option (List String)) (pr : Option ℕ)
    (sidx sf : ℕ) (sg th iv : ℚ) (ic : ℕ) (dt ld rd : String) (l r : TreeNode)
    (parent decision : Option String) (g g' : Digraph)
    (hdt : decLabels dt = some (ld, rd))
    (h : add sinfo fn pr (TreeNode.split sidx sf sg th dt iv ic l r) parent decision g =
      Except.ok g') :
    ("split" ++ toString sidx, nodeName l, some ld) ∈ g'.edges ∧
    ("split" ++ toString sidx, nodeName r, some rd) ∈ g'.edges := by
  rw [add] at h
  split at h
  · exact absurd h (by simp)
  · rw [hdt] at h
    dsimp only at h
    split at h
    · exact absurd h (by simp)
    · rename_i g2 h1
      split at h
      · exact absurd h (by simp)
      · rename_i g3 h2
        injection h with hg
        have e1 : ("split" ++ toString sidx, nodeName l, some ld) ∈ g2.edges :=
          add_ok_parent_edge sinfo fn pr l _ _ _ _ h1
        have e1g3 : ("split" ++ toString sidx, nodeName l, some ld) ∈ g3.edges :=
          add_edges_subset sinfo fn pr r _ _ _ _ h2 _ e1
        have e2 : ("split" ++ toString sidx, nodeName r, some rd) ∈ g3.edges :=
          add_ok_parent_edge sinfo fn pr r _ _ _ _ h2
        exact ⟨hg ▸ addParentEdge_edges_mem g3 parent _ decision _ e1g3,
               hg ▸ addParentEdge_edges_mem g3 parent _ decision _ e2⟩

/-- C1: for a tree description with `I` internal nodes (each having two
children) and `L` leaves, the graph built by the tree walker contains exactly
`I + L` nodes and `I*2` edges. -/
theorem to_graphviz_node_edge_counts (ti : TreeInfo) (sinfo : List String)
    (fn : Option (List String)) (pr : Option ℕ) (kw : List (String × PyVal)) (g : Digraph)
    (h : _to_graphviz true ti sinfo fn pr kw = Except.ok g) :
    g.nodes.length = internalCount ti.tree_structure + leafCount ti.tree_structure ∧
    g.edges.length = 2 * internalCount ti.tree_structure := by
  have h' : add sinfo fn pr ti.tree_structure none none (Digraph.mk kw [] []) =
      Except.ok g := by
    simpa [_to_graphviz] using h
  have c := add_ok_counts sinfo fn pr ti.tree_structure none none (Digraph.mk kw [] []) g h'
  simpa using c

/-- Sample tree for the C1 witness: one split node above two leaves. -/
def c1Tree : TreeNode :=
  TreeNode.split 0 0 0 (3 / 2) "<=" 0 0 (TreeNode.leaf 0 (-1) 0) (TreeNode.leaf 1 1 0)

/-- The graph the walker builds for `c1Tree`. -/
def c1Graph : Digraph :=
  match _to_graphviz true (TreeInfo.mk c1Tree) [] none none [] with
  | Except.ok g => g
  | Except.error _ => Digraph.mk [] [] []

/-- Witness for C1: the sample tree has 1 internal node and 2 leaves, and its
graph has 3 nodes and 2 edges. -/
theorem to_graphviz_node_edge_counts_witness :
    c1Graph.nodes.length = internalCount c1Tree + leafCount c1Tree ∧
    c1Graph.edges.length = 2 * internalCount c1Tree :=
  to_graphviz_node_edge_counts (TreeInfo.mk c1Tree) [] none none [] c1Graph rfl

/-- C2: for an internal node, decision type `<=` labels the left edge `<=`
and the right edge `>`; decision type `==` labels them `is` and `isn\x27t`;
any other decision type makes the walker raise the invalid-decision-type
ValueError, so no graph is returned. -/
theorem add_decision_type_labels (sinfo : List String) (fn : Option (List String))
    (pr : Option ℕ) (sidx sf : ℕ) (sg th iv : ℚ) (ic : ℕ) (dt : String)
    (l r : TreeNode) (parent decision : Option String) (g : Digraph) :
    (∀ g', dt = "<=" →
      add sinfo fn pr (TreeNode.split sidx sf sg th dt iv ic l r) parent decision g =
        Except.ok g' →
      ("split" ++ toString sidx, nodeName l, some "<=") ∈ g'.edges ∧
      ("split" ++ toString sidx, nodeName r, some ">") ∈ g'.edges) ∧
    (∀ g', dt = "==" →
      add sinfo fn pr (TreeNode.split sidx sf sg th dt iv ic l r) parent decision g =
        Except.ok g' →
      ("split" ++ toString sidx, nodeName l, some "is") ∈ g'.edges ∧
      ("split" ++ toString sidx, nodeName r, some "isn\x27t") ∈ g'.edges) ∧
    (dt ≠ "<=" → dt ≠ "==" → (∃ s, splitFeatureLabel fn sf = Except.ok s) →
      add sinfo fn pr (TreeNode.split sidx sf sg th dt iv ic l r) parent decision g =
        Except.error (PyErr.valErr "Invalid decision type in tree model.")) := by
  refine ⟨?_, ?_, ?_⟩
  · intro g' hdt h
    subst hdt
    exact add_split_edges sinfo fn pr sidx sf sg th iv ic "<=" "<=" ">" l r parent decision
      g g' (by decide) h
  · intro g' hdt h
    subst hdt
    exact add_split_edges sinfo fn pr sidx sf sg th iv ic "==" "is" "isn\x27t" l r parent
      decision g g' (by decide) h
  · intro h1 h2 hfl
    obtain ⟨s, hs⟩ := hfl
    have hd : decLabels dt = none := by simp [decLabels, h1, h2]
    simp [add, hs, hd]

/-- Sample left child for the C2 witness. -/
def c2TreeL : TreeNode := TreeNode.leaf 0 (-1) 0

/-- Sample right child for the C2 witness. -/
def c2TreeR : TreeNode := TreeNode.leaf 1 1 0

/-- The graph the walker builds for the C2 sample split node. -/
def c2Graph : Digraph :=
  match add [] none none (TreeNode.split 0 0 0 (3 / 2) "<=" 0 0 c2TreeL c2TreeR) none none
      (Digraph.mk [] [] []) with
  | Except.ok g => g
  | Except.error _ => Digraph.mk [] [] []

/-- Witness for C2: concrete `<=` split node yields the two labeled edges,
and an unrecognized decision type yields the ValueError. -/
theorem add_decision_type_labels_witness :
    (("split" ++ toString 0, nodeName c2TreeL, some "<=") ∈ c2Graph.edges ∧
     ("split" ++ toString 0, nodeName c2TreeR, some ">") ∈ c2Graph.edges) ∧
    add [] none none (TreeNode.split 0 0 0 (3 / 2) "!=" 0 0 c2TreeL c2TreeR) none none
      (Digraph.mk [] [] []) =
      Except.error (PyErr.valErr "Invalid decision type in tree model.") :=
  ⟨(add_decision_type_labels [] none none 0 0 0 (3 / 2) 0 0 "<=" c2TreeL c2TreeR none none
      (Digraph.mk [] [] [])).1 c2Graph rfl rfl,
   (add_decision_type_labels [] none none 0 0 0 (3 / 2) 0 0 "!=" c2TreeL c2TreeR none none
      (Digraph.mk [] [] [])).2.2 (by decide) (by decide) ⟨_, rfl⟩⟩

/-! ### Lemmas about the importance pipeline -/

instance : IsTotal (String × ℚ) (fun a b => a.2 ≤ b.2) :=
  ⟨fun a b => le_total a.2 b.2⟩

instance : IsTrans (String × ℚ) (fun a b => a.2 ≤ b.2) :=
  ⟨fun _ _ _ h1 h2 => le_trans h1 h2⟩

/-- With no truncation bound the pipeline is sort-then-filter. -/
theorem importance_tuples_none_eq (fn : List String) (imp : List ℚ) :
    importance_tuples fn imp true none =
      (pySorted (fn.zip imp)).filter (fun x => decide (0 < x.2)) := by
  simp [importance_tuples]

/-- With a positive bound the pipeline keeps the last `N` entries of the
untruncated pipeline. -/
theorem importance_tuples_drop (fn : List String) (imp : List ℚ) (N : ℤ) (hN : 0 < N) :
    importance_tuples fn imp true (some N) =
      (importance_tuples fn imp true none).drop
        ((importance_tuples fn imp true none).length - N.toNat) := by
  simp [importance_tuples, hN]

/-- The untruncated pipeline output is sorted ascending by score. -/
theorem importance_tuples_none_sorted (fn : List String) (imp : List ℚ) :
    List.Sorted (fun x y : String × ℚ => x.2 ≤ y.2) (importance_tuples fn imp true none) := by
  rw [importance_tuples_none_eq]
  exact (List.sorted_insertionSort (fun x y : String × ℚ => x.2 ≤ y.2) (fn.zip imp)).filter _

/-- In a sorted list, every dropped prefix entry is bounded by every kept
suffix entry. -/
theorem sorted_take_le_drop (l : List (String × ℚ)) (n : ℕ)
    (hs : List.Sorted (fun x y : String × ℚ => x.2 ≤ y.2) l) :
    ∀ x ∈ l.take n, ∀ y ∈ l.drop n, x.2 ≤ y.2 := by
  rw [← List.take_append_drop n l] at hs
  exact fun x hx y hy => (List.pairwise_append.mp hs).2.2 x hx y hy

/-- An empty importance vector makes the pipeline empty. -/
theorem importance_tuples_nil (fn : List String) (iz : Bool) (mnf : Option ℤ) :
    importance_tuples fn [] iz mnf = [] := by
  cases mnf <;> cases iz <;>
    simp [importance_tuples, pySorted, List.insertionSort]

/-- When the pipeline output is non-empty, the barh call rendered by
`plot_importance` (with a supplied axes instance and default ranges) draws
exactly the pipeline's scores. -/
theorem plot_importance_barh_mem (b : Booster) (mnf : Option ℤ) (iz : Bool) (height : ℚ)
    (ti xl yl : Option String) (it : String) (fs : Option (List ℚ)) (gr : Bool)
    (pr : Option ℕ)
    (hkept : importance_tuples b.feature_name b.feature_importance iz mnf ≠ []) :
    Effect.barh
        (List.range (importance_tuples b.feature_name b.feature_importance iz mnf).length)
        ((importance_tuples b.feature_name b.feature_importance iz mnf).map Prod.snd)
        height ∈
      (plot_importance true (BoosterArg.booster b) true height none none ti xl yl it mnf iz
        fs gr pr).1 := by
  have himp : ¬ (b.feature_importance.length = 0) := by
    intro h0
    exact hkept ((List.length_eq_zero.mp h0) ▸ importance_tuples_nil b.feature_name iz mnf)
  obtain ⟨t0, ts, hts⟩ :=
    List.exists_cons_of_ne_nil hkept
  simp only [plot_importance, resolveBooster, axCreate, Bool.not_true, Bool.false_eq_true,
    if_false, himp, ite_false, hts]
  simp [pyMaxE, List.mem_append]

/-- C3: `plot_importance` first sorts the `(name, score)` pairs ascending by
score, then (with `ignore_zero`) removes zero-score pairs, then keeps the last
`N` pairs; the rendered bars are exactly the values of that pipeline, whose
count is `min N (retained non-zero count)` and which are the `N`
highest-importance retained entries (all strictly positive). -/
theorem plot_importance_truncation (b : Booster) (N : ℤ) (height : ℚ)
    (ti xl yl : Option String) (it : String) (fs : Option (List ℚ)) (gr : Bool)
    (pr : Option ℕ) (hN : 0 < N)
    (hkept : importance_tuples b.feature_name b.feature_importance true (some N) ≠ []) :
    (Effect.barh
        (List.range
          (importance_tuples b.feature_name b.feature_importance true (some N)).length)
        ((importance_tuples b.feature_name b.feature_importance true (some N)).map Prod.snd)
        height ∈
      (plot_importance true (BoosterArg.booster b) true height none none ti xl yl it (some N)
        true fs gr pr).1) ∧
    (importance_tuples b.feature_name b.feature_importance true (some N)).length =
      min N.toNat (importance_tuples b.feature_name b.feature_importance true none).length ∧
    importance_tuples b.feature_name b.feature_importance true (some N) =
      (importance_tuples b.feature_name b.feature_importance true none).drop
        ((importance_tuples b.feature_name b.feature_importance true none).length -
          N.toNat) ∧
    List.Sorted (fun x y : String × ℚ => x.2 ≤ y.2)
      (importance_tuples b.feature_name b.feature_importance true none) ∧
    (∀ x ∈ (importance_tuples b.feature_name b.feature_importance true none).take
        ((importance_tuples b.feature_name b.feature_importance true none).length -
          N.toNat),
      ∀ y ∈ importance_tuples b.feature_name b.feature_importance true (some N),
        x.2 ≤ y.2) ∧
    (∀ y ∈ importance_tuples b.feature_name b.feature_importance true (some N), 0 < y.2) := by
  refine ⟨plot_importance_barh_mem b (some N) true height ti xl yl it fs gr pr hkept,
    ?_, importance_tuples_drop b.feature_name b.feature_importance N hN,
    importance_tuples_none_sorted b.feature_name b.feature_importance, ?_, ?_⟩
  · rw [importance_tuples_drop b.feature_name b.feature_importance N hN, List.length_drop]
    omega
  · intro x hx y hy
    rw [importance_tuples_drop b.feature_name b.feature_importance N hN] at hy
    exact sorted_take_le_drop _ _
      (importance_tuples_none_sorted b.feature_name b.feature_importance) x hx y hy
  · intro y hy
    rw [importance_tuples_drop b.feature_name b.feature_importance N hN] at hy
    have hmem : y ∈ importance_tuples b.feature_name b.feature_importance true none :=
      List.drop_subset _ _ hy
    rw [importance_tuples_none_eq] at hmem
    exact of_decide_eq_true (List.mem_filter.mp hmem).2

/-- Sample booster for the C3 witness. -/
def c3Booster : Booster :=
  Booster.mk [5, 0, 10] ["A", "B", "C"] ([], []) (ModelDump.mk [] none)

/-- Witness for C3 at a concrete booster with scores 5, 0, 10, ignore-zero on
and a bound of 2: the pipeline keeps min 2 2 = 2 entries. -/
theorem plot_importance_truncation_witness :
    (importance_tuples c3Booster.feature_name c3Booster.feature_importance true
        (some 2)).length =
      min (2 : ℤ).toNat
        (importance_tuples c3Booster.feature_name c3Booster.feature_importance true
          none).length :=
  (plot_importance_truncation c3Booster 2 (1 / 5) none none none "split" none true none
    (by decide) (by decide)).2.1

/-- An all-zero importance vector makes the pipeline empty under
`ignore_zero`. -/
theorem importance_tuples_all_zero (fn : List String) (imp : List ℚ) (mnf : Option ℤ)
    (hzero : ∀ x ∈ imp, x = 0) :
    importance_tuples fn imp true mnf = [] := by
  have hfilter : (pySorted (fn.zip imp)).filter (fun x => decide (0 < x.2)) = [] := by
    rw [List.filter_eq_nil_iff]
    intro a ha
    have hmem : a ∈ fn.zip imp := (List.perm_insertionSort _ (fn.zip imp)).mem_iff.mp ha
    obtain ⟨a1, a2⟩ := a
    have h2 : a2 ∈ imp := (List.of_mem_zip hmem).2
    simp [hzero a2 h2]
  have hnone : importance_tuples fn imp true none = [] := by
    rw [importance_tuples_none_eq, hfilter]
  cases mnf with
  | none => exact hnone
  | some n =>
    by_cases hn : 0 < n
    · rw [importance_tuples_drop fn imp n hn, hnone]
      simp
    · have heq : importance_tuples fn imp true (some n) =
          importance_tuples fn imp true none := by
        simp [importance_tuples, hn]
      rw [heq, hnone]

/-- C10: a non-empty, all-zero importance vector with `ignore_zero` makes
`plot_importance` raise the unpack ValueError, with no drawing effect; that
error differs from the documented empty-importance ValueError. -/
theorem plot_importance_all_zero_unpack (b : Booster) (ax : Bool) (height : ℚ)
    (xlim ylim : Option (List ℚ)) (ti xl yl : Option String) (it : String)
    (mnf : Option ℤ) (fs : Option (List ℚ)) (gr : Bool) (pr : Option ℕ)
    (hne : b.feature_importance ≠ [])
    (hzero : ∀ x ∈ b.feature_importance, x = 0) :
    plot_importance true (BoosterArg.booster b) ax height xlim ylim ti xl yl it mnf true
        fs gr pr =
      ([], some (PyErr.valErr "not enough values to unpack (expected 2, got 0)")) ∧
    some (PyErr.valErr "not enough values to unpack (expected 2, got 0)") ≠
      some (PyErr.valErr "Booster\x27s feature_importance is empty.") := by
  have htup : importance_tuples b.feature_name b.feature_importance true mnf = [] :=
    importance_tuples_all_zero _ _ _ hzero
  have himp : ¬ (b.feature_importance.length = 0) := by
    simpa [List.length_eq_zero] using hne
  constructor
  · simp [plot_importance, resolveBooster, himp, htup]
  · simp

/-- Sample booster for the C10 witness: two features, both zero importance. -/
def c10Booster : Booster :=
  Booster.mk [0, 0] ["A", "B"] ([], []) (ModelDump.mk [] none)

/-- Witness for C10 at the sample all-zero booster. -/
theorem plot_importance_all_zero_unpack_witness :
    plot_importance true (BoosterArg.booster c10Booster) false (1 / 5) none none none none
        none "split" none true none true none =
      ([], some (PyErr.valErr "not enough values to unpack (expected 2, got 0)")) :=
  (plot_importance_all_zero_unpack c10Booster false (1 / 5) none none none none none
    "split" none none true none (by decide) (by decide)).1

/-! ### Error ordering of the entry points -/

/-- The only error the feature-name lookup raises is the IndexError. -/
theorem splitFeatureLabel_error (fn : Option (List String)) (sf : ℕ) (e : PyErr)
    (h : splitFeatureLabel fn sf = Except.error e) :
    e = PyErr.idxErr "list index out of range" := by
  cases fn with
  | none => simp [splitFeatureLabel] at h
  | some fns =>
    rw [splitFeatureLabel] at h
    cases hg : fns.get? sf with
    | some s => rw [hg] at h; cases h
    | none =>
      rw [hg] at h
      injection h with h'
      exact h'.symm

/-- The walker raises only the invalid-decision-type ValueError or the
feature-name IndexError. -/
theorem add_error_cases (sinfo : List String) (fn : Option (List String)) (pr : Option ℕ) :
    ∀ (t : TreeNode) (parent decision : Option String) (g : Digraph) (e : PyErr),
      add sinfo fn pr t parent decision g = Except.error e →
      e = PyErr.valErr "Invalid decision type in tree model." ∨
      e = PyErr.idxErr "list index out of range" := by
  intro t
  induction t with
  | split sidx sf sg th dt iv ic l r ihl ihr =>
    intro parent decision g e h
    rw [add] at h
    split at h
    · rename_i e1 he1
      injection h with h'
      exact Or.inr (h' ▸ splitFeatureLabel_error fn sf e1 he1)
    · split at h
      · injection h with h'
        exact Or.inl h'.symm
      · rename_i flabel _ ld rd _
        dsimp only at h
        split at h
        · rename_i e1 he1
          injection h with h'
          exact h' ▸ ihl _ _ _ _ he1
        · rename_i g2 h1
          split at h
          · rename_i e1 he1
            injection h with h'
            exact h' ▸ ihr _ _ _ _ he1
          · exact absurd h (by simp)
  | leaf li lv lc =>
    intro parent decision g e h
    rw [add] at h
    exact absurd h (by simp)

/-- `_to_graphviz` never raises the out-of-range IndexError of
`create_tree_digraph`. -/
theorem to_graphviz_ne_range_error (gv : Bool) (ti : TreeInfo) (sinfo : List String)
    (fn : Option (List String)) (pr : Option ℕ) (kw : List (String × PyVal)) :
    _to_graphviz gv ti sinfo fn pr kw ≠
      Except.error (PyErr.idxErr "tree_index is out of range.") := by
  intro h
  rw [_to_graphviz] at h
  cases gv with
  | false => simp at h
  | true =>
    simp only [if_true] at h
    have hc := add_error_cases sinfo fn pr ti.tree_structure none none
      (Digraph.mk kw [] []) _ h
    rcases hc with h1 | h1 <;> simp at h1

/-- C4 counterexample: with graphviz missing and an unsupported booster
object, `create_tree_digraph` raises the booster TypeError, not the graphviz
ImportError — so the graphviz check does not come before booster
validation. -/
theorem create_tree_digraph_import_not_first_cex :
    (create_tree_digraph false BoosterArg.invalid 0 none none ctdNoDeprecated []).2 =
      Except.error (PyErr.typeErr "booster must be Booster or LGBMModel.") ∧
    (create_tree_digraph false BoosterArg.invalid 0 none none ctdNoDeprecated []).2 ≠
      Except.error (PyErr.impErr "You must install graphviz to plot tree.") := by
  constructor
  · rfl
  · intro h
    rw [create_tree_digraph] at h
    simp [resolveBooster] at h

/-- C4 amended: the matplotlib entry points fail immediately with the
ImportError, before any side effect, when matplotlib is missing; with
graphviz missing, `create_tree_digraph` does raise the graphviz ImportError
on a valid booster and in-range index, but it validates the booster first:
an unsupported booster raises the TypeError even though graphviz is
missing. -/
theorem backend_missing_behaviour
    (ba : BoosterArg) (ax : Bool) (height : ℚ) (xlim ylim : Option (List ℚ))
    (ti xl yl : Option String) (it : String) (mnf : Option ℤ) (iz : Bool)
    (fs : Option (List ℚ)) (gr : Bool) (pr : Option ℕ)
    (feat : Feature) (wc : ℚ)
    (mb : MetricBooster) (metric : Option String) (dsn : Option (List String))
    (b : Booster) (i : ℤ) (sinfo : Option (List String)) (dep : CtdDeprecated)
    (kw : List (String × PyVal)) (ptdep : PtDeprecated) (gv : Bool)
    (hi0 : 0 ≤ i) (hin : i < (b.dump_model.tree_info.length : ℤ)) :
    plot_importance false ba ax height xlim ylim ti xl yl it mnf iz fs gr pr =
      ([], some (PyErr.impErr "You must install matplotlib to plot importance.")) ∧
    plot_split_value_histogram false ba feat wc ax xlim ylim ti xl yl fs gr =
      ([], some (PyErr.impErr "You must install matplotlib to plot split value histogram.")) ∧
    plot_metric false mb metric dsn ax xlim ylim ti xl yl fs gr =
      ([], some (PyErr.impErr "You must install matplotlib to plot metric.")) ∧
    plot_tree false gv ba ax i fs ptdep sinfo pr kw =
      ([], some (PyErr.impErr "You must install matplotlib to plot tree.")) ∧
    (create_tree_digraph false (BoosterArg.booster b) i sinfo pr dep kw).2 =
      Except.error (PyErr.impErr "You must install graphviz to plot tree.") ∧
    (create_tree_digraph false BoosterArg.invalid i sinfo pr dep kw).2 =
      Except.error (PyErr.typeErr "booster must be Booster or LGBMModel.") := by
  refine ⟨rfl, rfl, rfl, rfl, ?_, rfl⟩
  have hlen : i.toNat < b.dump_model.tree_info.length := by omega
  simp only [create_tree_digraph, resolveBooster]
  rw [if_pos hin]
  rw [pyIndex, if_pos hi0, List.get?_eq_get hlen]
  rfl

/-- Sample booster with one tree for the C4 witness. -/
def c4Booster : Booster :=
  Booster.mk [] [] ([], []) (ModelDump.mk [TreeInfo.mk (TreeNode.leaf 0 0 0)] none)

/-- Witness for C4: at the sample booster and index 0, a missing graphviz
backend surfaces as the ImportError from within the tree walk. -/
theorem backend_missing_behaviour_witness :
    (create_tree_digraph false (BoosterArg.booster c4Booster) 0 none none ctdNoDeprecated
        []).2 =
      Except.error (PyErr.impErr "You must install graphviz to plot tree.") :=
  (backend_missing_behaviour BoosterArg.invalid true 0 none none none none none "split"
    none true none true none (Feature.idx 0) 1 MetricBooster.invalid none none c4Booster 0
    none ctdNoDeprecated [] (PtDeprecated.mk none none none) false (by decide)
    (by decide)).2.2.2.2.1

/-- C9: for a model with `n` trees and `-n ≤ tree_index ≤ -1`, the range
guard (which only tests `tree_index < n`) passes, no out-of-range IndexError
is raised, and the tree at position `n + tree_index` is selected. -/
theorem create_tree_digraph_negative_index (gv : Bool) (b : Booster) (i : ℤ)
    (sinfo : Option (List String)) (pr : Option ℕ) (dep : CtdDeprecated)
    (kw : List (String × PyVal))
    (h1 : -(b.dump_model.tree_info.length : ℤ) ≤ i) (h2 : i ≤ -1) :
    ∃ ti, b.dump_model.tree_info.get? ((b.dump_model.tree_info.length : ℤ) + i).toNat =
        some ti ∧
      (create_tree_digraph gv (BoosterArg.booster b) i sinfo pr dep kw).2 =
        _to_graphviz gv ti (sinfo.getD []) b.dump_model.feature_names pr
          (processDeprecatedCtd dep kw).2 ∧
      (create_tree_digraph gv (BoosterArg.booster b) i sinfo pr dep kw).2 ≠
        Except.error (PyErr.idxErr "tree_index is out of range.") := by
  have hidx : ((b.dump_model.tree_info.length : ℤ) + i).toNat <
      b.dump_model.tree_info.length := by omega
  obtain ⟨ti, hti⟩ : ∃ ti,
      b.dump_model.tree_info.get? ((b.dump_model.tree_info.length : ℤ) + i).toNat =
        some ti :=
    ⟨_, List.get?_eq_get hidx⟩
  have heq : (create_tree_digraph gv (BoosterArg.booster b) i sinfo pr dep kw).2 =
      _to_graphviz gv ti (sinfo.getD []) b.dump_model.feature_names pr
        (processDeprecatedCtd dep kw).2 := by
    simp only [create_tree_digraph, resolveBooster]
    rw [if_pos (by omega : i < (b.dump_model.tree_info.length : ℤ))]
    rw [pyIndex, if_neg (by omega : ¬ 0 ≤ i),
      if_pos (by omega : 0 ≤ (b.dump_model.tree_info.length : ℤ) + i), hti]
  exact ⟨ti, hti, heq,
    heq ▸ to_graphviz_ne_range_error gv ti (sinfo.getD []) b.dump_model.feature_names pr
      (processDeprecatedCtd dep kw).2⟩

/-- Sample booster with two trees for the C9 witness. -/
def c9Booster : Booster :=
  Booster.mk [] [] ([], [])
    (ModelDump.mk [TreeInfo.mk (TreeNode.leaf 0 0 0), TreeInfo.mk (TreeNode.leaf 1 1 0)]
      none)

/-- Witness for C9: index -1 on a two-tree model selects the tree at
position 1 and raises no out-of-range error. -/
theorem create_tree_digraph_negative_index_witness :
    ∃ ti, c9Booster.dump_model.tree_info.get?
        ((c9Booster.dump_model.tree_info.length : ℤ) + (-1)).toNat = some ti ∧
      (create_tree_digraph true (BoosterArg.booster c9Booster) (-1) none none
          ctdNoDeprecated []).2 =
        _to_graphviz true ti ((none : Option (List String)).getD [])
          c9Booster.dump_model.feature_names none
          (processDeprecatedCtd ctdNoDeprecated []).2 ∧
      (create_tree_digraph true (BoosterArg.booster c9Booster) (-1) none none
          ctdNoDeprecated []).2 ≠
        Except.error (PyErr.idxErr "tree_index is out of range.") :=
  create_tree_digraph_negative_index true c9Booster (-1) none none ctdNoDeprecated []
    (by decide) (by decide)

/-- With a supplied axes instance, a malformed `xlim` makes `plot_importance`
raise the tuple TypeError, but only after the bars have been drawn. -/
theorem plot_importance_bad_xlim (b : Booster) (mnf : Option ℤ) (iz : Bool) (height : ℚ)
    (xlim : List ℚ) (ylim : Option (List ℚ)) (ti xl yl : Option String) (it : String)
    (fs : Option (List ℚ)) (gr : Bool) (pr : Option ℕ)
    (hxlim : ¬ xlim.length = 2)
    (hkept : importance_tuples b.feature_name b.feature_importance iz mnf ≠ []) :
    (plot_importance true (BoosterArg.booster b) true height (some xlim) ylim ti xl yl it
        mnf iz fs gr pr).2 =
      some (PyErr.typeErr "xlim must be a tuple of 2 elements.") ∧
    Effect.barh
        (List.range (importance_tuples b.feature_name b.feature_importance iz mnf).length)
        ((importance_tuples b.feature_name b.feature_importance iz mnf).map Prod.snd)
        height ∈
      (plot_importance true (BoosterArg.booster b) true height (some xlim) ylim ti xl yl it
        mnf iz fs gr pr).1 := by
  have himp : ¬ (b.feature_importance.length = 0) := by
    intro h0
    exact hkept ((List.length_eq_zero.mp h0) ▸ importance_tuples_nil b.feature_name iz mnf)
  obtain ⟨t0, ts, hts⟩ := List.exists_cons_of_ne_nil hkept
  constructor <;>
  · simp only [plot_importance, resolveBooster, axCreate, himp, hts,
      _check_not_tuple_of_2_elements, hxlim]
    simp [List.mem_append, hxlim]

/-- With no axes instance, `plot_metric` creates the figure and only then
rejects an empty dataset-name filter. -/
theorem plot_metric_empty_names (er : EvalResults) (metric : Option String)
    (xlim ylim : Option (List ℚ)) (ti xl yl : Option String) (gr : Bool)
    (her : er ≠ []) :
    plot_metric true (MetricBooster.dict er) metric (some []) false xlim ylim ti xl yl
        none gr =
      ([Effect.subplots none],
       some (PyErr.valErr "dataset_names should be iterable and cannot be empty")) := by
  have hlen : ¬ (er.length = 0) := by simpa [List.length_eq_zero] using her
  simp [plot_metric, resolveEvalResults, axCreate, hlen]

/-- C5 counterexample: at a concrete one-dataset record, `plot_metric` with
`ax=None` and an empty dataset-name list raises the ValueError only after
creating the plot surface; and at a concrete booster, `plot_importance` with
a 3-element `xlim` draws the bar before raising the TypeError. -/
theorem validation_after_render_cex :
    ((plot_metric true (MetricBooster.dict [("train", [("l2", [1 / 2, 3 / 10, 1 / 5])])])
        none (some []) false none none none none none none true).2 =
      some (PyErr.valErr "dataset_names should be iterable and cannot be empty") ∧
     Effect.subplots none ∈
      (plot_metric true (MetricBooster.dict [("train", [("l2", [1 / 2, 3 / 10, 1 / 5])])])
        none (some []) false none none none none none none true).1) ∧
    ((plot_importance true (BoosterArg.booster (Booster.mk [5] ["A"] ([], [])
        (ModelDump.mk [] none))) true 1 (some [1, 2, 3]) none none none none "split" none
        true none true none).2 =
      some (PyErr.typeErr "xlim must be a tuple of 2 elements.") ∧
     Effect.barh [0] [5] 1 ∈
      (plot_importance true (BoosterArg.booster (Booster.mk [5] ["A"] ([], [])
        (ModelDump.mk [] none))) true 1 (some [1, 2, 3]) none none none none "split" none
        true none true none).1) := by
  refine ⟨⟨?_, ?_⟩, ?_, ?_⟩ <;> decide

/-- C5 amended: the validation errors carry the documented classifications
(TypeError for a malformed range tuple, ValueError for an empty dataset-name
filter) but are not raised before all rendering side effects: `plot_metric`
with `ax=None` creates the plot surface before validating `dataset_names`,
and `plot_importance` draws its bars before validating `xlim`. -/
theorem validation_errors_after_side_effects (er : EvalResults) (metric : Option String)
    (ti xl yl : Option String) (gr : Bool) (b : Booster) (height : ℚ) (xlim : List ℚ)
    (it : String) (pr : Option ℕ)
    (her : er ≠ []) (hxlim : ¬ xlim.length = 2)
    (hkept : importance_tuples b.feature_name b.feature_importance true none ≠ []) :
    plot_metric true (MetricBooster.dict er) metric (some []) false none none ti xl yl
        none gr =
      ([Effect.subplots none],
       some (PyErr.valErr "dataset_names should be iterable and cannot be empty")) ∧
    (plot_importance true (BoosterArg.booster b) true height (some xlim) none ti xl yl it
        none true none gr pr).2 =
      some (PyErr.typeErr "xlim must be a tuple of 2 elements.") ∧
    Effect.barh
        (List.range (importance_tuples b.feature_name b.feature_importance true none).length)
        ((importance_tuples b.feature_name b.feature_importance true none).map Prod.snd)
        height ∈
      (plot_importance true (BoosterArg.booster b) true height (some xlim) none ti xl yl it
        none true none gr pr).1 :=
  ⟨plot_metric_empty_names er metric none none ti xl yl gr her,
   (plot_importance_bad_xlim b none true height xlim none ti xl yl it none gr pr hxlim
     hkept).1,
   (plot_importance_bad_xlim b none true height xlim none ti xl yl it none gr pr hxlim
     hkept).2⟩

/-- Sample booster for the C5 witness. -/
def c5Booster : Booster := Booster.mk [5] ["A"] ([], []) (ModelDump.mk [] none)

/-- Witness for C5 (amended) at a concrete record and booster. -/
theorem validation_errors_after_side_effects_witness :
    plot_metric true (MetricBooster.dict [("train", [("l2", [1 / 2])])]) none (some [])
        false none none none none none none true =
      ([Effect.subplots none],
       some (PyErr.valErr "dataset_names should be iterable and cannot be empty")) :=
  (validation_errors_after_side_effects [("train", [("l2", [1 / 2])])] none none none none
    true c5Booster 1 [1, 2, 3] "split" none (by decide) (by decide) (by decide)).1

/-- C6 (code bug): the strict branch of `create_tree_digraph` reads the
nonexistent local name `strict` instead of `old_strict`, so `old_strict=True`
emits no deprecation warning and folds nothing into kwargs: the processing
and the whole entry point behave exactly as if `old_strict` were unset. -/
theorem create_tree_digraph_old_strict_ignored (gv : Bool) (ba : BoosterArg) (i : ℤ)
    (sinfo : Option (List String)) (pr : Option ℕ) (kwargs : List (String × PyVal)) :
    processDeprecatedCtd
        (CtdDeprecated.mk none none none none none none none none none none none true)
        kwargs = ([], kwargs) ∧
    (CtdDeprecated.mk none none none none none none none none none none none
        true).old_strict = true ∧
    create_tree_digraph gv ba i sinfo pr
        (CtdDeprecated.mk none none none none none none none none none none none true)
        kwargs =
      create_tree_digraph gv ba i sinfo pr ctdNoDeprecated kwargs := by
  refine ⟨rfl, rfl, ?_⟩
  cases ba <;> rfl

/-- Bin midpoints: entry `i` of the elementwise average of the edge list with
its own one-step shift is the midpoint of edges `i` and `i+1`. -/
theorem zipWith_adjacent_get (l : List ℚ) (i : ℕ) (h : i + 1 < l.length) :
    (List.zipWith (fun a c => (a + c) / 2) l.dropLast (l.drop 1)).get? i =
      some ((l.getD i 0 + l.getD (i + 1) 0) / 2) := by
  have hi : i < l.length := by omega
  have h1 : l.dropLast.get? i = some (l.getD i 0) := by
    rw [List.dropLast_eq_take, List.get?_eq_getElem?, List.getElem?_take_of_lt (by omega),
      List.getElem?_eq_getElem hi, List.getD_eq_getElem l 0 hi]
  have h2 : (l.drop 1).get? i = some (l.getD (i + 1) 0) := by
    rw [List.get?_eq_getElem?, List.getElem?_drop, show 1 + i = i + 1 by omega,
      List.getElem?_eq_getElem h, List.getD_eq_getElem l 0 h]
  rw [List.get?_zipWith', h1, h2]
  rfl

/-- C7: each bar rendered by `plot_split_value_histogram` has x-position
`(e i + e (i+1)) / 2` and width `width_coef * (e 1 - e 0)`. -/
theorem plot_split_value_histogram_bar_geometry (b : Booster) (feat : Feature)
    (wc : ℚ) (xlim ylim : Option (List ℚ)) (ti xl yl : Option String)
    (fs : Option (List ℚ)) (gr : Bool) (e0 e1 : ℚ) (erest : List ℚ)
    (hbins : b.split_value_histogram.2 = e0 :: e1 :: erest)
    (hnz : ¬ countNonzero b.split_value_histogram.1 = 0) :
    (Effect.bar
        (List.zipWith (fun a c => (a + c) / 2) (e0 :: e1 :: erest).dropLast
          ((e0 :: e1 :: erest).drop 1))
        b.split_value_histogram.1 (wc * (e1 - e0)) ∈
      (plot_split_value_histogram true (BoosterArg.booster b) feat wc true xlim ylim ti xl
        yl fs gr).1) ∧
    ∀ i, i + 1 < (e0 :: e1 :: erest).length →
      (List.zipWith (fun a c => (a + c) / 2) (e0 :: e1 :: erest).dropLast
          ((e0 :: e1 :: erest).drop 1)).get? i =
        some (((e0 :: e1 :: erest).getD i 0 + (e0 :: e1 :: erest).getD (i + 1) 0) / 2) := by
  constructor
  · simp only [plot_split_value_histogram, resolveBooster, axCreate, hbins, hnz]
    simp only [Bool.not_true, Bool.false_eq_true, if_false, ite_false, if_true, ite_true]
    split
    · simp
    · split
      · simp
      · simp
  · intro i hi
    exact zipWith_adjacent_get _ i hi

/-- Sample booster for the C7 witness: histogram `[1, 0]` over edges
`[0, 1, 2]`. -/
def c7Booster : Booster := Booster.mk [] [] ([1, 0], [0, 1, 2]) (ModelDump.mk [] none)

/-- Witness for C7 at the sample histogram. -/
theorem plot_split_value_histogram_bar_geometry_witness :
    Effect.bar
        (List.zipWith (fun a c => (a + c) / 2) ((0 : ℚ) :: (1 : ℚ) :: [(2 : ℚ)]).dropLast
          (((0 : ℚ) :: (1 : ℚ) :: [(2 : ℚ)]).drop 1))
        c7Booster.split_value_histogram.1 ((4 / 5) * (1 - 0)) ∈
      (plot_split_value_histogram true (BoosterArg.booster c7Booster) (Feature.idx 0)
        (4 / 5) true none none none none none none true).1 :=
  (plot_split_value_histogram_bar_geometry c7Booster (Feature.idx 0) (4 / 5) none none none
    none none none true 0 1 [2] rfl (by decide)).1

/-! ### Default axis ranges of plot_metric -/

/-- The metric values recorded for dataset `n` in the evaluation record. -/
def datasetResults (er : EvalResults) (m : String) (n : String) : Option (List ℚ) :=
  match lookupA er n with
  | some mfo => lookupA mfo m
  | none => none

/-- All metric values of the listed datasets, concatenated in dataset
order. -/
def restValues (er : EvalResults) (m : String) : List String → List ℚ
  | [] => []
  | n :: rest => (datasetResults er m n).getD [] ++ restValues er m rest

theorem foldl_max_init : ∀ (l : List ℚ) (a b : ℚ),
    l.foldl max (max a b) = max a (l.foldl max b) := by
  intro l
  induction l with
  | nil => intro a b; rfl
  | cons c l ih =>
    intro a b
    simp only [List.foldl_cons]
    rw [max_assoc, ih]

theorem foldl_min_init : ∀ (l : List ℚ) (a b : ℚ),
    l.foldl min (min a b) = min a (l.foldl min b) := by
  intro l
  induction l with
  | nil => intro a b; rfl
  | cons c l ih =>
    intro a b
    simp only [List.foldl_cons]
    rw [min_assoc, ih]

/-- The dataset loop of `plot_metric` succeeds and its running maximum and
minimum equal the fold of max / min of all remaining datasets' values over
the incoming values. -/
theorem metricLoop_minmax (er : EvalResults) (m : String) (x_ : List ℕ) :
    ∀ (rest : List String) (mx mn : ℚ) (tr : Trace),
      (∀ n ∈ rest, ∃ rs, datasetResults er m n = some rs ∧ rs ≠ []) →
      ∃ tr2, metricLoop er m x_ rest mx mn tr =
        (tr2, none, (restValues er m rest).foldl max mx,
          (restValues er m rest).foldl min mn) := by
  intro rest
  induction rest with
  | nil =>
    intro mx mn tr _
    exact ⟨tr, rfl⟩
  | cons n rest ih =>
    intro mx mn tr hall
    obtain ⟨rs, hrs, hne⟩ := hall n (by simp)
    obtain ⟨r0, rtail, hr⟩ := List.exists_cons_of_ne_nil hne
    subst hr
    have hlk : ∃ mfo, lookupA er n = some mfo ∧ lookupA mfo m = some (r0 :: rtail) := by
      rw [datasetResults] at hrs
      cases hl : lookupA er n with
      | none => rw [hl] at hrs; cases hrs
      | some mfo => rw [hl] at hrs; exact ⟨mfo, rfl, hrs⟩
    obtain ⟨mfo, hl1, hl2⟩ := hlk
    have hmax : (restValues er m (n :: rest)).foldl max mx =
        (restValues er m rest).foldl max (max (rtail.foldl max r0) mx) := by
      rw [restValues, hrs]
      simp only [Option.getD_some, List.foldl_append, List.foldl_cons]
      rw [foldl_max_init, max_comm mx (rtail.foldl max r0)]
    have hmin : (restValues er m (n :: rest)).foldl min mn =
        (restValues er m rest).foldl min (min (rtail.foldl min r0) mn) := by
      rw [restValues, hrs]
      simp only [Option.getD_some, List.foldl_append, List.foldl_cons]
      rw [foldl_min_init, min_comm mn (rtail.foldl min r0)]
    obtain ⟨tr2, htr2⟩ := ih (max (rtail.foldl max r0) mx) (min (rtail.foldl min r0) mn)
      (tr ++ [Effect.plotLine x_ (r0 :: rtail) n])
      (fun x hx => hall x (List.mem_cons_of_mem _ hx))
    refine ⟨tr2, ?_⟩
    rw [metricLoop, hl1]
    dsimp only
    rw [hl2]
    dsimp only
    simp only [pyMaxE, pyMinE]
    rw [hmax, hmin]
    exact htr2

/-- `pyMaxE` of a non-empty concatenation is the fold of the tail over the
head. -/
theorem pyMaxE_append (r0 : ℚ) (rtail rv : List ℚ) :
    pyMaxE ((r0 :: rtail) ++ rv) = Except.ok (rv.foldl max (rtail.foldl max r0)) := by
  simp [pyMaxE, List.foldl_append]

theorem pyMinE_append (r0 : ℚ) (rtail rv : List ℚ) :
    pyMinE ((r0 :: rtail) ++ rv) = Except.ok (rv.foldl min (rtail.foldl min r0)) := by
  simp [pyMinE, List.foldl_append]

/-- C8: with no explicit ylim or xlim, a supplied axes instance and an
explicit dataset list, `plot_metric` succeeds, sets the default x-range to
`(0, iteration count)` and the default y-range to
`(m - 0.2*(M - m), M + 0.2*(M - m))` where `m` / `M` are the minimum /
maximum of the chosen metric's values across all plotted datasets. -/
theorem plot_metric_default_ranges (er : EvalResults) (metric : Option String)
    (n1 : String) (rest : List String) (ti xlb ylb : Option String) (gr : Bool)
    (mfo : List (String × List ℚ)) (wtr : Trace) (m : String) (r0 : ℚ) (rtail : List ℚ)
    (er2 : EvalResults)
    (hmfo : lookupA er n1 = some mfo)
    (hsel : metricChoice mfo metric er n1 = Except.ok (wtr, m, r0 :: rtail, er2))
    (hall : ∀ n ∈ rest, ∃ rs, datasetResults er2 m n = some rs ∧ rs ≠ []) :
    ∃ MX MN,
      pyMaxE ((r0 :: rtail) ++ restValues er2 m rest) = Except.ok MX ∧
      pyMinE ((r0 :: rtail) ++ restValues er2 m rest) = Except.ok MN ∧
      Effect.setXlim [0, ((r0 :: rtail).length : ℚ)] ∈
        (plot_metric true (MetricBooster.dict er) metric (some (n1 :: rest)) true none none
          ti xlb ylb none gr).1 ∧
      Effect.setYlim [MN - (MX - MN) * 0.2, MX + (MX - MN) * 0.2] ∈
        (plot_metric true (MetricBooster.dict er) metric (some (n1 :: rest)) true none none
          ti xlb ylb none gr).1 ∧
      (plot_metric true (MetricBooster.dict er) metric (some (n1 :: rest)) true none none
        ti xlb ylb none gr).2 = none := by
  have her : ¬ (er.length = 0) := by
    intro h0
    rw [List.length_eq_zero.mp h0] at hmfo
    simp [lookupA] at hmfo
  obtain ⟨tr2, htr2⟩ := metricLoop_minmax er2 m (List.range (r0 :: rtail).length) rest
    (rtail.foldl max r0) (rtail.foldl min r0)
    (wtr ++ [Effect.plotLine (List.range (r0 :: rtail).length) (r0 :: rtail) n1]) hall
  refine ⟨(restValues er2 m rest).foldl max (rtail.foldl max r0),
    (restValues er2 m rest).foldl min (rtail.foldl min r0),
    pyMaxE_append r0 rtail _, pyMinE_append r0 rtail _, ?_, ?_, ?_⟩ <;>
  · simp only [plot_metric, resolveEvalResults, axCreate, Bool.not_true, Bool.false_eq_true,
      if_false, if_true, ite_true, ite_false, List.isEmpty_cons, List.nil_append, her,
      hmfo, hsel, pyMaxE, pyMinE]
    rw [htr2]
    try simp [List.mem_append]

/-- Evaluation record for the C8 witness (spec scenario 3). -/
def c8Record : EvalResults := [("train", [("l2", [1 / 2, 3 / 10, 1 / 5])])]

/-- Witness for C8 at scenario 3: values `[0.5, 0.3, 0.2]` give x-range
`(0, 3)` and y-range padded by 20 percent of the span 0.3. -/
theorem plot_metric_default_ranges_witness :
    ∃ MX MN,
      pyMaxE ((((1 : ℚ) / 2) :: [3 / 10, 1 / 5]) ++ restValues c8Record "l2" []) =
        Except.ok MX ∧
      pyMinE ((((1 : ℚ) / 2) :: [3 / 10, 1 / 5]) ++ restValues c8Record "l2" []) =
        Except.ok MN ∧
      Effect.setXlim [0, ((((1 : ℚ) / 2) :: [3 / 10, 1 / 5]).length : ℚ)] ∈
        (plot_metric true (MetricBooster.dict c8Record) (some "l2") (some ["train"]) true
          none none none none none none true).1 ∧
      Effect.setYlim [MN - (MX - MN) * 0.2, MX + (MX - MN) * 0.2] ∈
        (plot_metric true (MetricBooster.dict c8Record) (some "l2") (some ["train"]) true
          none none none none none none true).1 ∧
      (plot_metric true (MetricBooster.dict c8Record) (some "l2") (some ["train"]) true
        none none none none none none true).2 = none :=
  plot_metric_default_ranges c8Record (some "l2") "train" [] none none none true
    [("l2", [1 / 2, 3 / 10, 1 / 5])] [] "l2" (1 / 2) [3 / 10, 1 / 5] c8Record
    rfl rfl (fun n hn => absurd hn (List.not_mem_nil n))

end LGBMPlot
